import Mathlib

/-!
Shallow embedding of the bootstrap attribution-metrics core of the climattr
package (climattr/attribution.py, climattr/validator.py, climattr/utils.py),
together with theorems settling the specification claims about it.

Modelling conventions:
* float samples become rationals; numpy 1-D arrays become `List ℚ`;
  a 2-D array becomes a list of row lists;
* the global numpy random source becomes an explicit stream `rng : Nat → Nat`
  of raw draws; `np.random.choice(data, (k, n))` consumes the `k * n` stream
  positions starting at an explicit offset `c`, row-major, each raw draw
  reduced modulo the population size to an index (uniform choice with
  replacement);
* functions that can raise `ValueError` return `Except String`;
* `np.sort` / in-place `sort` becomes `List.insertionSort (· ≤ ·)` (the sorted
  result is the same list for any comparison sort, so the algorithm choice is
  immaterial);
* `np.percentile` with the default linear interpolation and `np.median` are
  embedded directly below.
-/

/-- The string constant used by climattr for ascending direction. -/
def ascending : String := "ascending"

/-- The string constant used by climattr for descending direction. -/
def descending : String := "descending"

/-- Message of the ValueError raised by `validate_direction`. -/
def directionErrMsg : String := "direction must be either ascending or descending."

/-- Message of the ValueError raised by `validate_ci`. -/
def ciErrMsg : String := "ci must be an integer between 1 and 100."

/-- climattr/validator.py `validate_ci`: raises unless the value is an integer
with `0 < value <= 100`.  The embedding's argument type `ℤ` already enforces
integrality (Python's `isinstance(value, int)` check). -/
def validate_ci (value : ℤ) : Except String Unit :=
  if 0 < value ∧ value ≤ 100 then Except.ok () else Except.error ciErrMsg

/-- climattr/validator.py `validate_direction`: raises unless the value is
the string `ascending` or `descending`. -/
def validate_direction (value : String) : Except String Unit :=
  if value = ascending ∨ value = descending then Except.ok () else
    Except.error directionErrMsg

/-- climattr/utils.py `get_percentiles_from_ci`: validates the confidence
interval, then returns `((100 - ci) / 2, 100 - (100 - ci) / 2)` (Python true
division). -/
def get_percentiles_from_ci (confidence_interval : ℤ) : Except String (ℚ × ℚ) :=
  match validate_ci confidence_interval with
  | Except.error e => Except.error e
  | Except.ok _ =>
    let ci_inf : ℚ := (100 - (confidence_interval : ℚ)) / 2
    let ci_sup : ℚ := 100 - (100 - (confidence_interval : ℚ)) / 2
    Except.ok (ci_inf, ci_sup)

/-- The duck-typed distribution adapter: any object exposing `fit`, `sf`,
`cdf`.  Parameters are an opaque tuple, embedded as `List ℚ`. -/
structure FitFunction where
  fit : List ℚ → List ℚ
  sf : ℚ → List ℚ → ℚ
  cdf : ℚ → List ℚ → ℚ

/-- One row of `np.random.choice(data, (boot_size, n), replace=True)`: the
`n` draws taken from stream positions `c, c+1, …, c+n-1`, each reduced modulo
the population size to index into `data`. -/
def bootRow (data : List ℚ) (rng : Nat → Nat) (c : Nat) : List ℚ :=
  (List.range data.length).map (fun j => data.getD (rng (c + j) % data.length) 0)

/-- Ascending sort of a row (`sample_store.sort(axis=1)`). -/
def sortAsc (xs : List ℚ) : List ℚ := List.insertionSort (fun a b => a ≤ b) xs

/-- climattr/attribution.py `_calc_bootstrap_ensemble`: draws a
`(boot_size, n)` bootstrap ensemble from `data` (consuming stream positions
`c, …, c + boot_size * n - 1` row-major), sorts each row ascending, and
reverses each row when `direction == descending`. -/
def _calc_bootstrap_ensemble (data : List ℚ) (direction : String)
    (boot_size : Nat) (rng : Nat → Nat) (c : Nat) : List (List ℚ) :=
  (List.range boot_size).map (fun i =>
    let row := sortAsc (bootRow data rng (c + i * data.length))
    if direction = descending then row.reverse else row)

/-- Linear interpolation of a sorted list `s` at fractional position `pos`
(numpy's default percentile interpolation): value
`s[i] + (pos - i) * (s[min(i+1, n-1)] - s[i])` with `i = ⌊pos⌋`. -/
def interpAt (s : List ℚ) (pos : ℚ) : ℚ :=
  s.getD (Int.floor pos).toNat 0
    + (pos - (((Int.floor pos).toNat : Nat) : ℚ))
      * (s.getD (min ((Int.floor pos).toNat + 1) (s.length - 1)) 0
        - s.getD (Int.floor pos).toNat 0)

/-- Embedding of `np.percentile(xs, q)` with linear interpolation: sort ascending and
interpolate at virtual position `q * (n - 1) / 100`.  (numpy raises on an
empty array; the embedding returns 0 there and theorems that need it assume
nonemptiness.) -/
def percentile (q : ℚ) (xs : List ℚ) : ℚ :=
  if xs.length = 0 then 0
  else interpAt (sortAsc xs) (q * ((xs.length : ℚ) - 1) / 100)

/-- Embedding of `np.median`: middle element of the ascending sort, or the mean of the two
middle elements for even length. -/
def median (xs : List ℚ) : ℚ :=
  let s := sortAsc xs
  if s.length = 0 then 0
  else if s.length % 2 = 1 then s.getD (s.length / 2) 0
  else (s.getD (s.length / 2 - 1) 0 + s.getD (s.length / 2) 0) / 2

/-- Column `t` of a 2-D array stored as a list of rows (used to embed
`np.percentile(..., axis=0)`). -/
def column (rows : List (List ℚ)) (t : Nat) : List ℚ :=
  rows.map (fun row => row.getD t 0)

/-- climattr/attribution.py `_calc_return_time_confidence`: percentile bounds
from the confidence level, a bootstrap ensemble, and the per-column
`ci_inf` / `ci_sup` percentiles across the `boot_size` rows. -/
def _calc_return_time_confidence (data : List ℚ) (direction : String)
    (bootstrap_ci : ℤ) (boot_size : Nat) (rng : Nat → Nat) (c : Nat) :
    Except String (List ℚ × List ℚ) :=
  match get_percentiles_from_ci bootstrap_ci with
  | Except.error e => Except.error e
  | Except.ok bounds =>
    let sample_store := _calc_bootstrap_ensemble data direction boot_size rng c
    Except.ok
      ((List.range data.length).map
        (fun t => percentile bounds.1 (column sample_store t)),
       (List.range data.length).map
        (fun t => percentile bounds.2 (column sample_store t)))

/-- climattr/attribution.py `_pr_calculation`: fit each sample, then the ratio
of survival functions (descending) or CDFs (otherwise) at the threshold. -/
def _pr_calculation (all_array nat_array : List ℚ) (fit_function : FitFunction)
    (thresh : ℚ) (direction : String) : ℚ :=
  let params_all := fit_function.fit all_array
  let params_nat := fit_function.fit nat_array
  if direction = descending then
    fit_function.sf thresh params_all / fit_function.sf thresh params_nat
  else
    fit_function.cdf thresh params_all / fit_function.cdf thresh params_nat

/-- climattr/attribution.py `_far_calculation`:
`1 - 1 / _pr_calculation(all, nat, fit_function, thresh)` — the `direction`
argument of `_pr_calculation` is not supplied, so it takes its default value
`descending`. -/
def _far_calculation (all_array nat_array : List ℚ) (fit_function : FitFunction)
    (thresh : ℚ) : ℚ :=
  1 - 1 / _pr_calculation all_array nat_array fit_function thresh descending

/-- climattr/attribution.py `_rp_calculation`: fit the sample, then the
reciprocal of the survival function (descending) or CDF (otherwise) at the
threshold. -/
def _rp_calculation (data : List ℚ) (fit_function : FitFunction) (thresh : ℚ)
    (direction : String) : ℚ :=
  let params := fit_function.fit data
  if direction = descending then 1 / fit_function.sf thresh params
  else 1 / fit_function.cdf thresh params

/-- One row of the metrics result table: columns value, ci_inf, ci_sup. -/
structure MetricsRow where
  value : ℚ
  ci_inf : ℚ
  ci_sup : ℚ
deriving DecidableEq, Repr

/-- The 4-by-3 result table of `attribution_metrics`, indexed by
PR, FAR, RP_ALL, RP_NAT. -/
structure MetricsResult where
  PR : MetricsRow
  FAR : MetricsRow
  RP_ALL : MetricsRow
  RP_NAT : MetricsRow
deriving DecidableEq, Repr

/-- Lines 447-448 of climattr/attribution.py: the two bootstrap ensembles
built by `attribution_metrics`.  The call sites pass only `data` and
`boot_size`, so `direction` takes its default `ascending`; the ALL ensemble is
drawn first (stream offset 0), then the NAT ensemble. -/
def attributionEnsembles (all_array nat_array : List ℚ) (boot_size : Nat)
    (rng : Nat → Nat) : List (List ℚ) × List (List ℚ) :=
  (_calc_bootstrap_ensemble all_array ascending boot_size rng 0,
   _calc_bootstrap_ensemble nat_array ascending boot_size rng
     (boot_size * all_array.length))

/-- The `boot_size` per-trial PR values of the orchestrator loop. -/
def prTrials (all_array nat_array : List ℚ) (fit_function : FitFunction)
    (thresh : ℚ) (direction : String) (boot_size : Nat) (rng : Nat → Nat) :
    List ℚ :=
  let eb := attributionEnsembles all_array nat_array boot_size rng
  (List.range boot_size).map (fun boot =>
    _pr_calculation (eb.1.getD boot []) (eb.2.getD boot []) fit_function
      thresh direction)

/-- The `boot_size` per-trial FAR values of the orchestrator loop (no
direction is passed to `_far_calculation` in the source). -/
def farTrials (all_array nat_array : List ℚ) (fit_function : FitFunction)
    (thresh : ℚ) (boot_size : Nat) (rng : Nat → Nat) : List ℚ :=
  let eb := attributionEnsembles all_array nat_array boot_size rng
  (List.range boot_size).map (fun boot =>
    _far_calculation (eb.1.getD boot []) (eb.2.getD boot []) fit_function thresh)

/-- The `boot_size` per-trial RP_ALL values of the orchestrator loop. -/
def rpAllTrials (all_array nat_array : List ℚ) (fit_function : FitFunction)
    (thresh : ℚ) (direction : String) (boot_size : Nat) (rng : Nat → Nat) :
    List ℚ :=
  let eb := attributionEnsembles all_array nat_array boot_size rng
  (List.range boot_size).map (fun boot =>
    _rp_calculation (eb.1.getD boot []) fit_function thresh direction)

/-- The `boot_size` per-trial RP_NAT values of the orchestrator loop. -/
def rpNatTrials (all_array nat_array : List ℚ) (fit_function : FitFunction)
    (thresh : ℚ) (direction : String) (boot_size : Nat) (rng : Nat → Nat) :
    List ℚ :=
  let eb := attributionEnsembles all_array nat_array boot_size rng
  (List.range boot_size).map (fun boot =>
    _rp_calculation (eb.2.getD boot []) fit_function thresh direction)

/-- The aggregation performed per metric at lines 485-488: median as the
value, and the `ci_inf` / `ci_sup` percentiles of the trial values. -/
def summaryRow (trials : List ℚ) (ci_inf ci_sup : ℚ) : MetricsRow :=
  ⟨median trials, percentile ci_inf trials, percentile ci_sup trials⟩

/-- climattr/attribution.py `attribution_metrics` (value-level semantics):
validates the direction, draws the two ensembles, computes the four per-trial
metric series, derives the percentile bounds from `bootstrap_ci` (which is
where an invalid `bootstrap_ci` raises, at line 475 — after the bootstrap
loop; the event ordering is modelled separately by `attribution_trace`), and
aggregates each series into a table row. -/
def attribution_metrics (all_array nat_array : List ℚ)
    (fit_function : FitFunction) (thresh : ℚ) (direction : String)
    (bootstrap_ci : ℤ) (boot_size : Nat) (rng : Nat → Nat) :
    Except String MetricsResult :=
  match validate_direction direction with
  | Except.error e => Except.error e
  | Except.ok _ =>
    match get_percentiles_from_ci bootstrap_ci with
    | Except.error e => Except.error e
    | Except.ok bounds =>
      Except.ok
        { PR := summaryRow
            (prTrials all_array nat_array fit_function thresh direction
              boot_size rng) bounds.1 bounds.2
          FAR := summaryRow
            (farTrials all_array nat_array fit_function thresh boot_size rng)
            bounds.1 bounds.2
          RP_ALL := summaryRow
            (rpAllTrials all_array nat_array fit_function thresh direction
              boot_size rng) bounds.1 bounds.2
          RP_NAT := summaryRow
            (rpNatTrials all_array nat_array fit_function thresh direction
              boot_size rng) bounds.1 bounds.2 }

/-- Observable events of one `attribution_metrics` call, in program order:
draws from the random source, per-trial metric computations, a raised
ValueError, or a normal return. -/
inductive AttrEvent where
  | rngDraw (pos : Nat)
  | trialMetric (i : Nat)
  | raised (msg : String)
  | returned
deriving DecidableEq, Repr

/-- The draw events for `count` consecutive stream positions starting at `c`. -/
def drawEvents (c count : Nat) : List AttrEvent :=
  (List.range count).map (fun t => AttrEvent.rngDraw (c + t))

/-- Event trace of `attribution_metrics`, read off the source line by line:
`validate_direction` at line 442 (raises immediately on a bad direction);
the two `_calc_bootstrap_ensemble` calls at lines 447-448 (all RNG draws);
the metric loop at lines 457-473 (one trial per bootstrap index); then
`get_percentiles_from_ci` at line 475, which is where an invalid
`bootstrap_ci` raises; otherwise the call returns. -/
def attribution_trace (all_array nat_array : List ℚ) (direction : String)
    (bootstrap_ci : ℤ) (boot_size : Nat) : List AttrEvent :=
  match validate_direction direction with
  | Except.error e => [AttrEvent.raised e]
  | Except.ok _ =>
    drawEvents 0 (boot_size * all_array.length)
      ++ drawEvents (boot_size * all_array.length)
          (boot_size * nat_array.length)
      ++ (List.range boot_size).map AttrEvent.trialMetric
      ++ match get_percentiles_from_ci bootstrap_ci with
         | Except.error e => [AttrEvent.raised e]
         | Except.ok _ => [AttrEvent.returned]

/-- Is this event a draw from the random source? -/
def isDraw : AttrEvent → Bool
  | AttrEvent.rngDraw _ => true
  | _ => false

/-- Is this event a per-trial metric computation? -/
def isTrial : AttrEvent → Bool
  | AttrEvent.trialMetric _ => true
  | _ => false

/-- Is this event a raised ValueError? -/
def isRaised : AttrEvent → Bool
  | AttrEvent.raised _ => true
  | _ => false

/-- True iff the trace raises before any bootstrap work: among draw events,
trial events and raises, the first one is a raise. -/
def raisesBeforeWork (tr : List AttrEvent) : Bool :=
  match tr.find? (fun e => isDraw e || isTrial e || isRaised e) with
  | some e => isRaised e
  | none => false

/-- An invalid direction string used in counterexamples/witnesses. -/
def invalidDirection : String := "up"

/-- A trivial concrete distribution adapter used in witnesses. -/
def constFit : FitFunction :=
  ⟨fun _ => [0, 1], fun _ _ => 1, fun _ _ => 1⟩

lemma getD_lt (s : List ℚ) (a : Nat) (h : a < s.length) :
    s.getD a 0 = s.get ⟨a, h⟩ := by
  rw [List.getD_eq_getElem?_getD, List.getElem?_eq_getElem h]
  rfl

lemma sorted_getD_mono {s : List ℚ}
    (hs : List.Sorted (fun a b : ℚ => a ≤ b) s) {a b : Nat}
    (hab : a ≤ b) (hb : b < s.length) : s.getD a 0 ≤ s.getD b 0 := by
  have ha : a < s.length := Nat.lt_of_le_of_lt hab hb
  rw [getD_lt s a ha, getD_lt s b hb]
  exact hs.rel_get_of_le (Fin.mk_le_mk.2 hab)

lemma sortAsc_sorted (xs : List ℚ) :
    List.Sorted (fun a b : ℚ => a ≤ b) (sortAsc xs) :=
  List.sorted_insertionSort _ xs

lemma sortAsc_length (xs : List ℚ) : (sortAsc xs).length = xs.length :=
  List.length_insertionSort _ xs

lemma sortAsc_mem {x : ℚ} {xs : List ℚ} : x ∈ sortAsc xs ↔ x ∈ xs :=
  List.mem_insertionSort _

lemma bootRow_length (data : List ℚ) (rng : Nat → Nat) (c : Nat) :
    (bootRow data rng c).length = data.length := by
  simp [bootRow]

lemma bootRow_mem {data : List ℚ} (hd : data ≠ []) (rng : Nat → Nat) (c : Nat) :
    ∀ x ∈ bootRow data rng c, x ∈ data := by
  intro x hx
  obtain ⟨j, _, rfl⟩ := List.mem_map.1 hx
  have hlen : 0 < data.length := List.length_pos.2 hd
  have hidx : rng (c + j) % data.length < data.length := Nat.mod_lt _ hlen
  rw [getD_lt data _ hidx]
  exact List.get_mem data _ hidx

lemma ensemble_row {data : List ℚ} {d : String} {k c : Nat} {rng : Nat → Nat}
    {row : List ℚ} (h : row ∈ _calc_bootstrap_ensemble data d k rng c) :
    ∃ i, i < k ∧ row = (if d = descending
      then (sortAsc (bootRow data rng (c + i * data.length))).reverse
      else sortAsc (bootRow data rng (c + i * data.length))) := by
  obtain ⟨i, hi, hrow⟩ := List.mem_map.1 h
  exact ⟨i, List.mem_range.1 hi, hrow.symm⟩

lemma ensemble_length (data : List ℚ) (d : String) (k c : Nat)
    (rng : Nat → Nat) : (_calc_bootstrap_ensemble data d k rng c).length = k := by
  simp [_calc_bootstrap_ensemble]

lemma ensemble_ascending_row_sorted {data : List ℚ} {k c : Nat}
    {rng : Nat → Nat} :
    ∀ row ∈ _calc_bootstrap_ensemble data ascending k rng c,
      List.Sorted (fun a b : ℚ => a ≤ b) row := by
  intro row hrow
  obtain ⟨i, _, rfl⟩ := ensemble_row hrow
  rw [if_neg (by decide : ¬ ascending = descending)]
  exact sortAsc_sorted _

/-- C2: `_far_calculation` returns exactly `1 - 1/PR` where PR is
`_pr_calculation` evaluated with the fixed descending convention - the ratio
of the survival functions of the two independent fits at the threshold -
regardless of any direction the orchestrator's caller supplied (no direction
argument reaches `_far_calculation`); the identity FAR = 1 - 1/PR holds
exactly as rational arithmetic. -/
theorem far_is_one_sub_inv_pr_descending (all_array nat_array : List ℚ)
    (fit_function : FitFunction) (thresh : ℚ) :
    _far_calculation all_array nat_array fit_function thresh =
        1 - 1 / _pr_calculation all_array nat_array fit_function thresh
          descending
    ∧ _far_calculation all_array nat_array fit_function thresh =
        1 - 1 / (fit_function.sf thresh (fit_function.fit all_array)
          / fit_function.sf thresh (fit_function.fit nat_array)) := by
  constructor
  · rfl
  · simp [_far_calculation, _pr_calculation]

/-- C4: `_rp_calculation` fits the distribution to the sample and returns
`1 / sf(thresh, params)` for descending and `1 / cdf(thresh, params)` for
ascending. -/
theorem rp_calculation_spec (data : List ℚ) (fit_function : FitFunction)
    (thresh : ℚ) :
    _rp_calculation data fit_function thresh descending =
        1 / fit_function.sf thresh (fit_function.fit data)
    ∧ _rp_calculation data fit_function thresh ascending =
        1 / fit_function.cdf thresh (fit_function.fit data) := by
  constructor
  · rfl
  · have h : ¬ ascending = descending := by decide
    simp [_rp_calculation, h]

/-- C5: `_pr_calculation` fits the distribution independently to each sample
and returns the ALL-over-NAT ratio of survival functions at the threshold for
descending, and of CDFs for ascending. -/
theorem pr_calculation_spec (all_array nat_array : List ℚ)
    (fit_function : FitFunction) (thresh : ℚ) :
    _pr_calculation all_array nat_array fit_function thresh descending =
        fit_function.sf thresh (fit_function.fit all_array)
          / fit_function.sf thresh (fit_function.fit nat_array)
    ∧ _pr_calculation all_array nat_array fit_function thresh ascending =
        fit_function.cdf thresh (fit_function.fit all_array)
          / fit_function.cdf thresh (fit_function.fit nat_array) := by
  constructor
  · rfl
  · have h : ¬ ascending = descending := by decide
    simp [_pr_calculation, h]

/-- C8: `get_percentiles_from_ci c` returns exactly
`((100 - c)/2, 100 - (100 - c)/2)` for every integer `c` with `0 < c ≤ 100`,
and raises ValueError exactly when `c` is outside that range (the embedding's
argument type `ℤ` covers Python's integrality check). -/
theorem get_percentiles_from_ci_spec (c : ℤ) :
    (0 < c ∧ c ≤ 100 →
      get_percentiles_from_ci c =
        Except.ok ((100 - (c : ℚ)) / 2, 100 - (100 - (c : ℚ)) / 2))
    ∧ (¬ (0 < c ∧ c ≤ 100) →
      get_percentiles_from_ci c = Except.error ciErrMsg) := by
  constructor
  · intro h
    simp [get_percentiles_from_ci, validate_ci, h]
  · intro h
    simp [get_percentiles_from_ci, validate_ci, h]

/-- Witness for C8 at the spec's example points: 95 gives (2.5, 97.5),
90 gives (5, 95), and 0 raises. -/
theorem get_percentiles_from_ci_spec_witness :
    get_percentiles_from_ci 95 = Except.ok (5/2, 195/2)
    ∧ get_percentiles_from_ci 90 = Except.ok (5, 95)
    ∧ get_percentiles_from_ci 0 = Except.error ciErrMsg := by
  refine ⟨?_, ?_, ?_⟩
  · rw [(get_percentiles_from_ci_spec 95).1 (by decide)]
    norm_num
  · rw [(get_percentiles_from_ci_spec 90).1 (by decide)]
    norm_num
  · exact (get_percentiles_from_ci_spec 0).2 (by decide)

/-- C3: `_calc_bootstrap_ensemble` is total on degenerate inputs: an empty
sample gives `boot_size` rows of length 0 (shape `(boot_size, 0)`), and
`boot_size = 0` gives the empty ensemble (shape `(0, n)`), without raising. -/
theorem bootstrap_degenerate_shapes (d : String) (k : Nat) (rng : Nat → Nat)
    (c : Nat) (data : List ℚ) :
    (_calc_bootstrap_ensemble [] d k rng c).length = k
    ∧ (∀ row ∈ _calc_bootstrap_ensemble [] d k rng c, row.length = 0)
    ∧ _calc_bootstrap_ensemble data d 0 rng c = [] := by
  refine ⟨ensemble_length [] d k c rng, ?_, by simp [_calc_bootstrap_ensemble]⟩
  intro row hrow
  obtain ⟨i, _, rfl⟩ := ensemble_row hrow
  simp [bootRow, sortAsc, List.insertionSort]

/-- C6: for a non-empty sample and positive `boot_size`, the ensemble has
`boot_size` rows of length `n`; every ascending row is non-decreasing, every
descending row is non-increasing, and every element of every row is an
element of the input sample. -/
theorem bootstrap_rows_sorted_and_from_sample (data : List ℚ) (k : Nat)
    (rng : Nat → Nat) (c : Nat) (hd : data ≠ []) (hk : 0 < k) :
    ((_calc_bootstrap_ensemble data ascending k rng c).length = k
      ∧ ∀ row ∈ _calc_bootstrap_ensemble data ascending k rng c,
          row.length = data.length
          ∧ List.Sorted (fun a b : ℚ => a ≤ b) row
          ∧ ∀ x ∈ row, x ∈ data)
    ∧ ((_calc_bootstrap_ensemble data descending k rng c).length = k
      ∧ ∀ row ∈ _calc_bootstrap_ensemble data descending k rng c,
          row.length = data.length
          ∧ List.Sorted (fun a b : ℚ => b ≤ a) row
          ∧ ∀ x ∈ row, x ∈ data) := by
  constructor
  · refine ⟨ensemble_length data ascending k c rng, ?_⟩
    intro row hrow
    obtain ⟨i, _, rfl⟩ := ensemble_row hrow
    rw [if_neg (by decide : ¬ ascending = descending)]
    refine ⟨?_, sortAsc_sorted _, ?_⟩
    · rw [sortAsc_length, bootRow_length]
    · intro x hx
      exact bootRow_mem hd rng _ x (sortAsc_mem.1 hx)
  · refine ⟨ensemble_length data descending k c rng, ?_⟩
    intro row hrow
    obtain ⟨i, _, rfl⟩ := ensemble_row hrow
    rw [if_pos rfl]
    refine ⟨?_, ?_, ?_⟩
    · rw [List.length_reverse, sortAsc_length, bootRow_length]
    · exact List.pairwise_reverse.2 (sortAsc_sorted _)
    · intro x hx
      exact bootRow_mem hd rng _ x (sortAsc_mem.1 (List.mem_reverse.1 hx))

/-- Witness for C6 at the concrete sample `[2, 1]`, one bootstrap row and
the identity stream. -/
theorem bootstrap_rows_sorted_and_from_sample_witness :
    ((_calc_bootstrap_ensemble [2, 1] ascending 1 (fun n => n) 0).length = 1
      ∧ ∀ row ∈ _calc_bootstrap_ensemble [2, 1] ascending 1 (fun n => n) 0,
          row.length = ([2, 1] : List ℚ).length
          ∧ List.Sorted (fun a b : ℚ => a ≤ b) row
          ∧ ∀ x ∈ row, x ∈ ([2, 1] : List ℚ))
    ∧ ((_calc_bootstrap_ensemble [2, 1] descending 1 (fun n => n) 0).length = 1
      ∧ ∀ row ∈ _calc_bootstrap_ensemble [2, 1] descending 1 (fun n => n) 0,
          row.length = ([2, 1] : List ℚ).length
          ∧ List.Sorted (fun a b : ℚ => b ≤ a) row
          ∧ ∀ x ∈ row, x ∈ ([2, 1] : List ℚ)) :=
  bootstrap_rows_sorted_and_from_sample [2, 1] 1 (fun n => n) 0
    (by decide) (by decide)

/-- C10: `attribution_metrics` builds both of its ensembles with the
resampler's default ascending ordering (the caller's direction is not
forwarded at lines 447-448): the ensembles it uses are exactly the
ascending-direction ensembles, every row fed to the per-trial fits is
non-decreasing even when the caller asked for descending, and the caller's
direction enters only the per-trial `_pr_calculation` / `_rp_calculation`
sf-versus-cdf choice (`_far_calculation` gets no direction at all). -/
theorem direction_not_forwarded_to_resampler (all_array nat_array : List ℚ)
    (fit_function : FitFunction) (thresh : ℚ) (d : String) (k : Nat)
    (rng : Nat → Nat) (hd : d = ascending ∨ d = descending) :
    (attributionEnsembles all_array nat_array k rng).1
        = _calc_bootstrap_ensemble all_array ascending k rng 0
    ∧ (attributionEnsembles all_array nat_array k rng).2
        = _calc_bootstrap_ensemble nat_array ascending k rng
            (k * all_array.length)
    ∧ (∀ row ∈ (attributionEnsembles all_array nat_array k rng).1,
        List.Sorted (fun a b : ℚ => a ≤ b) row)
    ∧ (∀ row ∈ (attributionEnsembles all_array nat_array k rng).2,
        List.Sorted (fun a b : ℚ => a ≤ b) row)
    ∧ prTrials all_array nat_array fit_function thresh d k rng
        = (List.range k).map (fun boot =>
            _pr_calculation
              ((_calc_bootstrap_ensemble all_array ascending k rng 0).getD
                boot [])
              ((_calc_bootstrap_ensemble nat_array ascending k rng
                (k * all_array.length)).getD boot [])
              fit_function thresh d)
    ∧ farTrials all_array nat_array fit_function thresh k rng
        = (List.range k).map (fun boot =>
            _far_calculation
              ((_calc_bootstrap_ensemble all_array ascending k rng 0).getD
                boot [])
              ((_calc_bootstrap_ensemble nat_array ascending k rng
                (k * all_array.length)).getD boot [])
              fit_function thresh)
    ∧ rpAllTrials all_array nat_array fit_function thresh d k rng
        = (List.range k).map (fun boot =>
            _rp_calculation
              ((_calc_bootstrap_ensemble all_array ascending k rng 0).getD
                boot [])
              fit_function thresh d)
    ∧ rpNatTrials all_array nat_array fit_function thresh d k rng
        = (List.range k).map (fun boot =>
            _rp_calculation
              ((_calc_bootstrap_ensemble nat_array ascending k rng
                (k * all_array.length)).getD boot [])
              fit_function thresh d) := by
  refine ⟨rfl, rfl, ?_, ?_, rfl, rfl, rfl, rfl⟩
  · exact ensemble_ascending_row_sorted
  · exact ensemble_ascending_row_sorted

/-- Witness for C10 with the caller asking for descending on concrete data. -/
theorem direction_not_forwarded_to_resampler_witness :
    (attributionEnsembles [1] [2] 1 (fun n => n)).1
        = _calc_bootstrap_ensemble [1] ascending 1 (fun n => n) 0
    ∧ ∀ row ∈ (attributionEnsembles [1] [2] 1 (fun n => n)).1,
        List.Sorted (fun a b : ℚ => a ≤ b) row :=
  ⟨(direction_not_forwarded_to_resampler [1] [2] constFit 0 descending 1
      (fun n => n) (Or.inr rfl)).1,
   (direction_not_forwarded_to_resampler [1] [2] constFit 0 descending 1
      (fun n => n) (Or.inr rfl)).2.2.1⟩

lemma drawEvents_countP_isDraw (c n : Nat) :
    (drawEvents c n).countP isDraw = n := by
  have h : ∀ e ∈ drawEvents c n, isDraw e = true := by
    intro e he
    obtain ⟨t, _, rfl⟩ := List.mem_map.1 he
    rfl
  rw [List.countP_eq_length.2 h]
  simp [drawEvents]

lemma drawEvents_countP_isTrial (c n : Nat) :
    (drawEvents c n).countP isTrial = 0 := by
  rw [List.countP_eq_zero.2]
  intro e he
  obtain ⟨t, _, rfl⟩ := List.mem_map.1 he
  simp [isTrial]

lemma trialEvents_countP_isTrial (k : Nat) :
    ((List.range k).map AttrEvent.trialMetric).countP isTrial = k := by
  have h : ∀ e ∈ (List.range k).map AttrEvent.trialMetric, isTrial e = true := by
    intro e he
    obtain ⟨t, _, rfl⟩ := List.mem_map.1 he
    rfl
  rw [List.countP_eq_length.2 h]
  simp

lemma trialEvents_countP_isDraw (k : Nat) :
    ((List.range k).map AttrEvent.trialMetric).countP isDraw = 0 := by
  rw [List.countP_eq_zero.2]
  intro e he
  obtain ⟨t, _, rfl⟩ := List.mem_map.1 he
  simp [isDraw]

/-- Counterexample to C1 as stated: at the concrete call with valid direction
`descending`, invalid `bootstrap_ci = 0`, samples `[1]` and `[1]` and one
bootstrap trial, a ValueError is indeed raised (`validate_ci` fires inside
`get_percentiles_from_ci`), but not before bootstrap work: the very first
event of the call is an RNG draw, so the raise happens after resampling and
after the per-trial metric computation. -/
theorem ci_validation_after_resampling_counterexample :
    ¬ (0 < (0 : ℤ) ∧ (0 : ℤ) ≤ 100)
    ∧ (attribution_trace [1] [1] descending 0 1).any isRaised = true
    ∧ raisesBeforeWork (attribution_trace [1] [1] descending 0 1) = false
    ∧ (attribution_trace [1] [1] descending 0 1).head?
        = some (AttrEvent.rngDraw 0) := by
  decide

/-- C1 amended: an invalid direction raises ValidationError before any RNG
draw and before any per-trial computation (the trace is just the raise), but
an invalid `bootstrap_ci` under a valid direction raises only at the end of
the call — after all `boot_size * (n_all + n_nat)` RNG draws and all
`boot_size` per-trial metric computations — because `validate_ci` only runs
inside `get_percentiles_from_ci` at line 475, after the bootstrap loop. -/
theorem attribution_metrics_validation_order (all_array nat_array : List ℚ)
    (d : String) (ci : ℤ) (k : Nat) :
    (¬ (d = ascending ∨ d = descending) →
      attribution_trace all_array nat_array d ci k
        = [AttrEvent.raised directionErrMsg])
    ∧ (d = ascending ∨ d = descending → ¬ (0 < ci ∧ ci ≤ 100) →
        (attribution_trace all_array nat_array d ci k).getLast?
            = some (AttrEvent.raised ciErrMsg)
        ∧ (attribution_trace all_array nat_array d ci k).countP isDraw
            = k * (all_array.length + nat_array.length)
        ∧ (attribution_trace all_array nat_array d ci k).countP isTrial
            = k) := by
  constructor
  · intro h
    simp [attribution_trace, validate_direction, h]
  · intro h1 h2
    have htrace : attribution_trace all_array nat_array d ci k
        = drawEvents 0 (k * all_array.length)
          ++ (drawEvents (k * all_array.length) (k * nat_array.length)
          ++ ((List.range k).map AttrEvent.trialMetric
          ++ [AttrEvent.raised ciErrMsg])) := by
      simp [attribution_trace, validate_direction, get_percentiles_from_ci,
        validate_ci, h1, h2]
    rw [htrace]
    refine ⟨?_, ?_, ?_⟩
    · rw [← List.append_assoc, ← List.append_assoc]
      exact List.getLast?_concat _
    · rw [List.countP_append, List.countP_append, List.countP_append,
        drawEvents_countP_isDraw, drawEvents_countP_isDraw,
        trialEvents_countP_isDraw]
      simp [List.countP_cons, isDraw, Nat.mul_add]
    · rw [List.countP_append, List.countP_append, List.countP_append,
        drawEvents_countP_isTrial, drawEvents_countP_isTrial,
        trialEvents_countP_isTrial]
      simp [List.countP_cons, isTrial]

/-- Witness for C1 amended: an invalid direction string gives the bare raise;
an invalid `bootstrap_ci` with valid direction puts the raise last, after the
two RNG draws of the two one-element ensembles. -/
theorem attribution_metrics_validation_order_witness :
    attribution_trace [1] [1] invalidDirection 0 1
        = [AttrEvent.raised directionErrMsg]
    ∧ (attribution_trace [(1 : ℚ)] [1] descending 0 1).getLast?
        = some (AttrEvent.raised ciErrMsg)
    ∧ (attribution_trace [(1 : ℚ)] [1] descending 0 1).countP isDraw = 2 := by
  refine ⟨?_, ?_, ?_⟩
  · exact (attribution_metrics_validation_order [1] [1] invalidDirection
      0 1).1 (by decide)
  · exact ((attribution_metrics_validation_order [1] [1] descending 0 1).2
      (by decide) (by decide)).1
  · have h := ((attribution_metrics_validation_order [1] [1] descending
      0 1).2 (by decide) (by decide)).2.1
    simpa using h
lemma interpAt_mono (s : List ℚ) (hs : List.Sorted (fun a b : ℚ => a ≤ b) s)
    (hne : s ≠ []) {p1 p2 : ℚ} (h0 : 0 ≤ p1) (h12 : p1 ≤ p2)
    (h2 : p2 ≤ (s.length : ℚ) - 1) :
    interpAt s p1 ≤ interpAt s p2 := by
  have hn : 0 < s.length := List.length_pos.2 hne
  have h02 : 0 ≤ p2 := le_trans h0 h12
  have hf1 : (0 : ℤ) ≤ Int.floor p1 := Int.floor_nonneg.2 h0
  have hf2 : (0 : ℤ) ≤ Int.floor p2 := Int.floor_nonneg.2 h02
  unfold interpAt
  set n := s.length with hn_def
  set i1 := (Int.floor p1).toNat with hi1_def
  set i2 := (Int.floor p2).toNat with hi2_def
  have hle1 : (i1 : ℚ) ≤ p1 := by
    have h : ((i1 : ℤ) : ℚ) ≤ p1 := by
      rw [hi1_def, Int.toNat_of_nonneg hf1]
      exact Int.floor_le p1
    exact_mod_cast h
  have hlt1 : p1 < (i1 : ℚ) + 1 := by
    have h : p1 < ((i1 : ℤ) : ℚ) + 1 := by
      rw [hi1_def, Int.toNat_of_nonneg hf1]
      exact Int.lt_floor_add_one p1
    exact_mod_cast h
  have hle2 : (i2 : ℚ) ≤ p2 := by
    have h : ((i2 : ℤ) : ℚ) ≤ p2 := by
      rw [hi2_def, Int.toNat_of_nonneg hf2]
      exact Int.floor_le p2
    exact_mod_cast h
  have hi12 : i1 ≤ i2 := by
    rw [hi1_def, hi2_def]
    exact Int.toNat_le_toNat (Int.floor_le_floor h12)
  have hcast : ((n - 1 : Nat) : ℚ) = (n : ℚ) - 1 := by
    push_cast [Nat.cast_sub hn]
    ring
  have hi2n : i2 ≤ n - 1 := by
    have h : (i2 : ℚ) ≤ ((n - 1 : Nat) : ℚ) := by
      rw [hcast]
      exact le_trans hle2 h2
    exact_mod_cast h
  have hi1n : i1 ≤ n - 1 := le_trans hi12 hi2n
  have hsub : n - 1 < n := Nat.sub_lt hn Nat.one_pos
  have hi2lt : i2 < n := Nat.lt_of_le_of_lt hi2n hsub
  have hj1lt : min (i1 + 1) (n - 1) < n :=
    Nat.lt_of_le_of_lt (min_le_right _ _) hsub
  have hj2lt : min (i2 + 1) (n - 1) < n :=
    Nat.lt_of_le_of_lt (min_le_right _ _) hsub
  have hi1j1 : i1 ≤ min (i1 + 1) (n - 1) := le_min (Nat.le_succ i1) hi1n
  have hi2j2 : i2 ≤ min (i2 + 1) (n - 1) := le_min (Nat.le_succ i2) hi2n
  have hab1 : s.getD i1 0 ≤ s.getD (min (i1 + 1) (n - 1)) 0 :=
    sorted_getD_mono hs hi1j1 hj1lt
  have hab2 : s.getD i2 0 ≤ s.getD (min (i2 + 1) (n - 1)) 0 :=
    sorted_getD_mono hs hi2j2 hj2lt
  rcases eq_or_lt_of_le hi12 with heq | hlt
  · rw [heq]
    have hdelta : 0 ≤ s.getD (min (i2 + 1) (n - 1)) 0 - s.getD i2 0 := by
      linarith
    have hmul := mul_le_mul_of_nonneg_right
      (by linarith : p1 - (i2 : ℚ) ≤ p2 - (i2 : ℚ)) hdelta
    linarith
  · have hj1i2 : min (i1 + 1) (n - 1) ≤ i2 := le_trans (min_le_left _ _) hlt
    have hval : s.getD (min (i1 + 1) (n - 1)) 0 ≤ s.getD i2 0 :=
      sorted_getD_mono hs hj1i2 hi2lt
    have hfrac1 : p1 - (i1 : ℚ) ≤ 1 := by linarith
    have hdelta1 : 0 ≤ s.getD (min (i1 + 1) (n - 1)) 0 - s.getD i1 0 := by
      linarith
    have hdelta2 : 0 ≤ s.getD (min (i2 + 1) (n - 1)) 0 - s.getD i2 0 := by
      linarith
    have h1 : (p1 - (i1 : ℚ)) * (s.getD (min (i1 + 1) (n - 1)) 0 - s.getD i1 0)
        ≤ s.getD (min (i1 + 1) (n - 1)) 0 - s.getD i1 0 :=
      mul_le_of_le_one_left hdelta1 hfrac1
    have h2' : 0 ≤ (p2 - (i2 : ℚ))
        * (s.getD (min (i2 + 1) (n - 1)) 0 - s.getD i2 0) :=
      mul_nonneg (by linarith) hdelta2
    linarith

lemma percentile_mono {xs : List ℚ} (hne : xs ≠ []) {q1 q2 : ℚ}
    (h0 : 0 ≤ q1) (h12 : q1 ≤ q2) (h100 : q2 ≤ 100) :
    percentile q1 xs ≤ percentile q2 xs := by
  have hlen : xs.length ≠ 0 := by simpa [List.length_eq_zero] using hne
  have hn1 : (1 : ℚ) ≤ (xs.length : ℚ) := by
    exact_mod_cast Nat.one_le_iff_ne_zero.2 hlen
  have hnn : (0 : ℚ) ≤ (xs.length : ℚ) - 1 := by linarith
  unfold percentile
  rw [if_neg hlen, if_neg hlen]
  apply interpAt_mono (sortAsc xs) (sortAsc_sorted xs)
  · intro hcontra
    apply hlen
    rw [← sortAsc_length xs, hcontra]
    rfl
  · exact div_nonneg (mul_nonneg h0 hnn) (by norm_num)
  · gcongr
  · rw [sortAsc_length]
    rw [div_le_iff₀ (by norm_num : (0 : ℚ) < 100)]
    nlinarith

lemma column_length (rows : List (List ℚ)) (t : Nat) :
    (column rows t).length = rows.length := by
  simp [column]

lemma getD_map_range (f : Nat → ℚ) {n t : Nat} (h : t < n) :
    ((List.range n).map f).getD t 0 = f t := by
  rw [List.getD_eq_getElem?_getD, List.getElem?_map, List.getElem?_range h]
  rfl

lemma get_percentiles_from_ci_valid {ci : ℤ} (h : 0 < ci ∧ ci ≤ 100) :
    get_percentiles_from_ci ci =
      Except.ok ((100 - (ci : ℚ)) / 2, 100 - (100 - (ci : ℚ)) / 2) := by
  simp [get_percentiles_from_ci, validate_ci, h]

lemma attribution_metrics_ok (all_array nat_array : List ℚ)
    (fit_function : FitFunction) (thresh : ℚ) (d : String) (ci : ℤ) (k : Nat)
    (rng : Nat → Nat) (h1 : d = ascending ∨ d = descending)
    (h2 : 0 < ci ∧ ci ≤ 100) :
    attribution_metrics all_array nat_array fit_function thresh d ci k rng
      = Except.ok
        { PR := summaryRow
            (prTrials all_array nat_array fit_function thresh d k rng)
            ((100 - (ci : ℚ)) / 2) (100 - (100 - (ci : ℚ)) / 2)
          FAR := summaryRow
            (farTrials all_array nat_array fit_function thresh k rng)
            ((100 - (ci : ℚ)) / 2) (100 - (100 - (ci : ℚ)) / 2)
          RP_ALL := summaryRow
            (rpAllTrials all_array nat_array fit_function thresh d k rng)
            ((100 - (ci : ℚ)) / 2) (100 - (100 - (ci : ℚ)) / 2)
          RP_NAT := summaryRow
            (rpNatTrials all_array nat_array fit_function thresh d k rng)
            ((100 - (ci : ℚ)) / 2) (100 - (100 - (ci : ℚ)) / 2) } := by
  unfold attribution_metrics validate_direction
  rw [if_pos h1, get_percentiles_from_ci_valid h2]

/-- C9: for every valid input the percentile-based confidence bounds are
ordered: `_calc_return_time_confidence` returns `lower[t] ≤ upper[t]` at every
position, and every metric row of the `attribution_metrics` table satisfies
`ci_inf ≤ ci_sup` (both because the percentile of a fixed sample is monotone
in the requested percentile and `(100-ci)/2 ≤ 100-(100-ci)/2`). -/
theorem confidence_bounds_ordered (data all_array nat_array : List ℚ)
    (fit_function : FitFunction) (thresh : ℚ) (d : String) (ci : ℤ) (k : Nat)
    (rng : Nat → Nat) (c : Nat) (hd : d = ascending ∨ d = descending)
    (hci : 0 < ci ∧ ci ≤ 100) (hk : 0 < k) :
    (∃ lu, _calc_return_time_confidence data d ci k rng c = Except.ok lu
      ∧ ∀ t, t < data.length → lu.1.getD t 0 ≤ lu.2.getD t 0)
    ∧ (∃ r, attribution_metrics all_array nat_array fit_function thresh d ci
          k rng = Except.ok r
      ∧ r.PR.ci_inf ≤ r.PR.ci_sup ∧ r.FAR.ci_inf ≤ r.FAR.ci_sup
      ∧ r.RP_ALL.ci_inf ≤ r.RP_ALL.ci_sup
      ∧ r.RP_NAT.ci_inf ≤ r.RP_NAT.ci_sup) := by
  have hciq1 : (0 : ℚ) < (ci : ℚ) := by exact_mod_cast hci.1
  have hciq2 : ((ci : ℚ)) ≤ 100 := by exact_mod_cast hci.2
  have hinf0 : (0 : ℚ) ≤ (100 - (ci : ℚ)) / 2 := by linarith
  have hinfsup : (100 - (ci : ℚ)) / 2 ≤ 100 - (100 - (ci : ℚ)) / 2 := by
    linarith
  have hsup100 : 100 - (100 - (ci : ℚ)) / 2 ≤ 100 := by linarith
  constructor
  · refine ⟨((List.range data.length).map (fun t =>
        percentile ((100 - (ci : ℚ)) / 2)
          (column (_calc_bootstrap_ensemble data d k rng c) t)),
      (List.range data.length).map (fun t =>
        percentile (100 - (100 - (ci : ℚ)) / 2)
          (column (_calc_bootstrap_ensemble data d k rng c) t))), ?_, ?_⟩
    · unfold _calc_return_time_confidence
      rw [get_percentiles_from_ci_valid hci]
    · intro t ht
      dsimp only
      rw [getD_map_range _ ht, getD_map_range _ ht]
      have hcol : (column (_calc_bootstrap_ensemble data d k rng c) t).length
          = k := by
        rw [column_length, ensemble_length]
      have hcne : column (_calc_bootstrap_ensemble data d k rng c) t ≠ [] := by
        intro hcontra
        rw [hcontra] at hcol
        simp at hcol
        omega
      exact percentile_mono hcne hinf0 hinfsup hsup100
  · refine ⟨_, attribution_metrics_ok all_array nat_array fit_function thresh
      d ci k rng hd hci, ?_, ?_, ?_, ?_⟩
    all_goals dsimp only [summaryRow]
    · have hne : prTrials all_array nat_array fit_function thresh d k rng
          ≠ [] := by
        have hl : (prTrials all_array nat_array fit_function thresh d k
            rng).length = k := by simp [prTrials]
        intro hcontra
        rw [hcontra] at hl
        simp at hl
        omega
      exact percentile_mono hne hinf0 hinfsup hsup100
    · have hne : farTrials all_array nat_array fit_function thresh k rng
          ≠ [] := by
        have hl : (farTrials all_array nat_array fit_function thresh k
            rng).length = k := by simp [farTrials]
        intro hcontra
        rw [hcontra] at hl
        simp at hl
        omega
      exact percentile_mono hne hinf0 hinfsup hsup100
    · have hne : rpAllTrials all_array nat_array fit_function thresh d k rng
          ≠ [] := by
        have hl : (rpAllTrials all_array nat_array fit_function thresh d k
            rng).length = k := by simp [rpAllTrials]
        intro hcontra
        rw [hcontra] at hl
        simp at hl
        omega
      exact percentile_mono hne hinf0 hinfsup hsup100
    · have hne : rpNatTrials all_array nat_array fit_function thresh d k rng
          ≠ [] := by
        have hl : (rpNatTrials all_array nat_array fit_function thresh d k
            rng).length = k := by simp [rpNatTrials]
        intro hcontra
        rw [hcontra] at hl
        simp at hl
        omega
      exact percentile_mono hne hinf0 hinfsup hsup100

/-- Witness for C9 at a concrete valid call. -/
theorem confidence_bounds_ordered_witness :
    (∃ lu, _calc_return_time_confidence [1] descending 95 1 (fun n => n) 0
        = Except.ok lu
      ∧ ∀ t, t < ([1] : List ℚ).length → lu.1.getD t 0 ≤ lu.2.getD t 0)
    ∧ (∃ r, attribution_metrics [1] [2] constFit 0 descending 95 1
          (fun n => n) = Except.ok r
      ∧ r.PR.ci_inf ≤ r.PR.ci_sup ∧ r.FAR.ci_inf ≤ r.FAR.ci_sup
      ∧ r.RP_ALL.ci_inf ≤ r.RP_ALL.ci_sup
      ∧ r.RP_NAT.ci_inf ≤ r.RP_NAT.ci_sup) :=
  confidence_bounds_ordered [1] [1] [2] constFit 0 descending 95 1
    (fun n => n) 0 (Or.inr rfl) (by decide) (by decide)

/-- C7: under valid inputs, `attribution_metrics` returns the 4-row table
indexed by PR, FAR, RP_ALL, RP_NAT whose value column is the median of that
metric's `boot_size` trial values, and whose `ci_inf` / `ci_sup` columns are
the percentiles of the trial values at `(100 - bootstrap_ci)/2` and
`100 - (100 - bootstrap_ci)/2`. -/
theorem metrics_table_aggregation (all_array nat_array : List ℚ)
    (fit_function : FitFunction) (thresh : ℚ) (d : String) (ci : ℤ) (k : Nat)
    (rng : Nat → Nat) (h1 : d = ascending ∨ d = descending)
    (h2 : 0 < ci ∧ ci ≤ 100) :
    attribution_metrics all_array nat_array fit_function thresh d ci k rng
      = Except.ok
        { PR := ⟨median (prTrials all_array nat_array fit_function thresh d
              k rng),
            percentile ((100 - (ci : ℚ)) / 2)
              (prTrials all_array nat_array fit_function thresh d k rng),
            percentile (100 - (100 - (ci : ℚ)) / 2)
              (prTrials all_array nat_array fit_function thresh d k rng)⟩
          FAR := ⟨median (farTrials all_array nat_array fit_function thresh
              k rng),
            percentile ((100 - (ci : ℚ)) / 2)
              (farTrials all_array nat_array fit_function thresh k rng),
            percentile (100 - (100 - (ci : ℚ)) / 2)
              (farTrials all_array nat_array fit_function thresh k rng)⟩
          RP_ALL := ⟨median (rpAllTrials all_array nat_array fit_function
              thresh d k rng),
            percentile ((100 - (ci : ℚ)) / 2)
              (rpAllTrials all_array nat_array fit_function thresh d k rng),
            percentile (100 - (100 - (ci : ℚ)) / 2)
              (rpAllTrials all_array nat_array fit_function thresh d k rng)⟩
          RP_NAT := ⟨median (rpNatTrials all_array nat_array fit_function
              thresh d k rng),
            percentile ((100 - (ci : ℚ)) / 2)
              (rpNatTrials all_array nat_array fit_function thresh d k rng),
            percentile (100 - (100 - (ci : ℚ)) / 2)
              (rpNatTrials all_array nat_array fit_function thresh d k
                rng)⟩ } :=
  attribution_metrics_ok all_array nat_array fit_function thresh d ci k rng
    h1 h2

lemma median_singleton (x : ℚ) : median [x] = x := by
  simp [median, sortAsc, List.insertionSort, List.orderedInsert]

lemma percentile_singleton (q : ℚ) (x : ℚ) : percentile q [x] = x := by
  simp [percentile, interpAt, sortAsc, List.insertionSort, List.orderedInsert]

lemma prTrials_concrete :
    prTrials [1] [2] constFit 0 descending 1 (fun n => n) = [1] := by
  norm_num [prTrials, attributionEnsembles, _calc_bootstrap_ensemble, bootRow,
    sortAsc, List.insertionSort, List.orderedInsert, _pr_calculation, constFit]

lemma farTrials_concrete :
    farTrials [1] [2] constFit 0 1 (fun n => n) = [0] := by
  norm_num [farTrials, attributionEnsembles, _calc_bootstrap_ensemble, bootRow,
    sortAsc, List.insertionSort, List.orderedInsert, _far_calculation,
    _pr_calculation, constFit]

lemma rpAllTrials_concrete :
    rpAllTrials [1] [2] constFit 0 descending 1 (fun n => n) = [1] := by
  norm_num [rpAllTrials, attributionEnsembles, _calc_bootstrap_ensemble,
    bootRow, sortAsc, List.insertionSort, List.orderedInsert, _rp_calculation,
    constFit]

lemma rpNatTrials_concrete :
    rpNatTrials [1] [2] constFit 0 descending 1 (fun n => n) = [1] := by
  norm_num [rpNatTrials, attributionEnsembles, _calc_bootstrap_ensemble,
    bootRow, sortAsc, List.insertionSort, List.orderedInsert, _rp_calculation,
    constFit]

/-- Witness for C7: the concrete table at a trivial adapter, where every PR
and RP trial equals 1 and every FAR trial equals 0. -/
theorem metrics_table_aggregation_witness :
    attribution_metrics [1] [2] constFit 0 descending 95 1 (fun n => n)
      = Except.ok ⟨⟨1, 1, 1⟩, ⟨0, 0, 0⟩, ⟨1, 1, 1⟩, ⟨1, 1, 1⟩⟩ := by
  rw [metrics_table_aggregation [1] [2] constFit 0 descending 95 1
    (fun n => n) (Or.inr rfl) (by decide)]
  rw [prTrials_concrete, farTrials_concrete, rpAllTrials_concrete,
    rpNatTrials_concrete]
  simp [median_singleton, percentile_singleton]
